import Mathlib

set_option maxRecDepth 100000

/-!
Verification development for the Haggle_AI negotiation pipeline.

Shallow embedding of the core components of the repository:
* `schemas.py` — pydantic models `NegotiationProposal` and `VendorResponse`,
  embedded as the validators `parse_proposal` / `parse_vendor_response`
  (the agent parses backend text with `json.loads` and then validates with
  the pydantic schema; we embed the *parse outcome* of the raw text as
  `RawText`, since no claim depends on concrete JSON syntax).
* `prompts.py` — prompt templates and fallback templates, embedded as
  string constants / string functions.
* `agent.py` — `NegotiationAgent`: `generate_proposals`,
  `_generate_single_proposal`, `_parse_proposal`, `simulate_vendor_response`,
  `_parse_vendor_response`, `_format_context`, `_get_fallback_proposal`,
  `_get_fallback_vendor_response`.  The LLM backend is modelled as an
  oracle `Nat → Option RawText` (call index ↦ parsed reply, `none` = the
  call raised); Python's `random.uniform(0.25, 0.75)` draw is an explicit
  parameter `u`; machine floats are modelled by exact rationals.
* `llm.py` — `LLMWrapper.generate` with its three stacked retry layers
  (tenacity `stop_after_attempt(3)` over the custom `_with_retry` wrapper
  on `generate`, which calls the `_with_retry`-wrapped provider functions),
  embedded over a provider oracle `Nat → Option String` with an explicit
  call counter.
-/

/-- A JSON-ish value, the result of `json.loads` on a field.  Python dicts
returned by the agent are embedded as association lists of `JValue`s. -/
inductive JValue where
  | str (s : String)
  | num (q : ℚ)
  | bool (b : Bool)
  | null
deriving DecidableEq

/-- Outcome of `json.loads` on the backend's raw reply text: either the text
is not a JSON object (syntax error, or a non-object JSON document — both make
`_parse_proposal` / `_parse_vendor_response` raise), or it is an object with
the given fields. -/
inductive RawText where
  | malformed
  | obj (fields : List (String × JValue))
deriving DecidableEq

/-- Python dict lookup on an embedded JSON object / result dict
(`d[k]`, first binding wins; `json.loads` produces unique keys). -/
def jget : List (String × JValue) → String → Option JValue
  | [], _ => none
  | (k, v) :: rest, key => if k = key then some v else jget rest key

/-- Lookup of a field that must be a string (pydantic v2 does not coerce
non-strings into `str` fields). -/
def jgetStr (fields : List (String × JValue)) (key : String) : Option String :=
  match jget fields key with
  | some (JValue.str s) => some s
  | _ => none

/-- The keys of an embedded Python dict, in insertion order. -/
def keysOf (d : List (String × JValue)) : List String := d.map Prod.fst

/-- The only uncaught exception kind the embedded entry points can raise:
a `KeyError` from a missing context / proposal dict key. -/
inductive PyErr where
  | keyError (key : String)
deriving DecidableEq

/-- Little-endian decimal digits of `n`, with explicit fuel (structural
recursion so that the kernel can evaluate it). -/
def toDigitsRev (fuel n : ℕ) : List ℕ :=
  match fuel with
  | 0 => []
  | fuel' + 1 => if n = 0 then [] else n % 10 :: toDigitsRev fuel' (n / 10)

/-- Decimal rendering of a natural number, as Python's `str` prints it. -/
def pyStrNat (n : ℕ) : String :=
  if n = 0 then "0"
  else String.mk ((toDigitsRev (n + 1) n).reverse.map fun d => Char.ofNat (48 + d))

/-- Rendering of a context price as Python's `str` inside an f-string.
Integral values print as their decimal digits, exactly as Python prints the
`int` prices used throughout the repository; a non-integral rational is
rendered as `num/den` (a stand-in for Python's float rendering — no claim
depends on the rendering of a non-integral price). -/
def pyStr (q : ℚ) : String :=
  if q.den = 1 then
    (if q.num < 0 then "-" ++ pyStrNat q.num.natAbs else pyStrNat q.num.natAbs)
  else
    (if q.num < 0 then "-" ++ pyStrNat q.num.natAbs else pyStrNat q.num.natAbs)
      ++ "/" ++ pyStrNat q.den

/-- Python's `str.strip()`: remove leading and trailing whitespace. -/
def pyStrip (s : String) : String :=
  String.mk (((s.data.dropWhile Char.isWhitespace).reverse.dropWhile
    Char.isWhitespace).reverse)

/-- Rendering of a `JValue` inside a Python f-string / `str.format` slot. -/
def jvalStr : JValue → String
  | JValue.str s => s
  | JValue.num q => pyStr q
  | JValue.bool b => if b then "True" else "False"
  | JValue.null => "None"

/-- `NegotiationContext` (spec §3): the context dict passed by the caller.
Each field is optional because the Python object is a plain dict — a missing
key raises `KeyError` on access (claim C7). -/
structure NegotiationContext where
  vendor_message : Option String
  past_price : Option ℚ
  target_price : Option ℚ
  service_type : Option String
  relationship : Option String
deriving DecidableEq

/-- Whether the context dict is missing the given key (models `k not in context`). -/
def ctxMissing (ctx : NegotiationContext) (key : String) : Bool :=
  if key = "vendor_message" then ctx.vendor_message.isNone
  else if key = "past_price" then ctx.past_price.isNone
  else if key = "target_price" then ctx.target_price.isNone
  else if key = "service_type" then ctx.service_type.isNone
  else if key = "relationship" then ctx.relationship.isNone
  else false

/-- One record of a call made to `LLMWrapper.generate` by the orchestrator:
system prompt, user prompt and sampling temperature. -/
structure CallRec where
  system : String
  user : String
  temp : ℚ
deriving DecidableEq

/-- The agent-level backend: successive calls to `self.llm.generate`,
indexed by call number.  `none` models the call raising (transport failure
or exhausted adapter retries); `some r` models it returning text whose
JSON-parse outcome is `r`. -/
abbrev LLMOracle := Nat → Option RawText

/-- `prompts.SYSTEM_PROMPT` (prompts.py). -/
def SYSTEM_PROMPT : String :=
  "You are an expert negotiation consultant with 20+ years of experience in B2B vendor negotiations. \n\nYour expertise includes:\n- SaaS and technology service negotiations\n- Understanding vendor psychology and business pressures\n- Crafting persuasive yet respectful communication\n- Balancing relationship preservation with cost savings\n- Recognizing negotiation leverage and timing\n\nAlways return ONLY valid JSON when requested. Do not include any prose outside JSON.\n"

/-- The system prompt used by `simulate_vendor_response` (agent.py). -/
def VENDOR_SYSTEM_PROMPT : String :=
  "You are simulating a vendor\x27s response to a negotiation. Be realistic and consider business factors."

/-- `prompts.PROPOSAL_PROMPT.format(context=..., strategy=..., ...)`:
the proposal prompt template with its two used placeholders substituted
(the `past_price` / `target_price` keyword arguments are evaluated by the
caller but the template has no matching placeholder, see
`generate_single_proposal`). -/
def PROPOSAL_PROMPT_format (context strategy : String) : String :=
  "\nAnalyze this negotiation scenario and generate a proposal following the specified strategy.\n\n<context>\n"
    ++ context
    ++ "\n</context>\n\n<strategy>\n"
    ++ strategy
    ++ "\n</strategy>\n\n<instructions>\nYour response must be a JSON object with the following structure:\n```json\n\x7b\n    \"proposal\": \"The full text of the negotiation proposal.\",\n    \"reasoning\": \"The strategic reasoning behind this proposal.\",\n    \"expected_outcome\": \"What outcome is expected from this approach.\"\n\x7d\n```\nReturn ONLY JSON with keys: proposal, reasoning, expected_outcome.\nKeep proposal ≤ 140 words. No invented facts.\n\n<example>\n  <input>\n    <context>Vendor is increasing the price from $500 to $600.</context>\n    <strategy>polite</strategy>\n  </input>\n  <output>\n  ```json\n  \x7b\n      \"proposal\": \"We\x27d like to propose a renewal at $525/month.\",\n      \"reasoning\": \"A polite opening with a modest counter-offer.\",\n      \"expected_outcome\": \"The vendor is likely to accept or provide a further discount.\"\n  \x7d\n  ```\n  </output>\n</example>\n"

/-- `prompts.VENDOR_SIMULATION_PROMPT.format(...)` with its six placeholders
substituted. -/
def VENDOR_SIMULATION_PROMPT_format
    (vendor_message proposal original_price target_price service_type relationship : String) :
    String :=
  "\nYou are simulating a realistic vendor response to a negotiation attempt.\n\n<context>\n  <vendor_message>"
    ++ vendor_message
    ++ "</vendor_message>\n  <customer_proposal>"
    ++ proposal
    ++ "</customer_proposal>\n  <original_price>$"
    ++ original_price
    ++ "/month</original_price>\n  <target_price>$"
    ++ target_price
    ++ "/month</target_price>\n  <service_type>"
    ++ service_type
    ++ "</service_type>\n  <relationship_length>"
    ++ relationship
    ++ "</relationship_length>\n</context>\n\n<instructions>\n  As a vendor, consider the following:\n  - Your margins and flexibility.\n  - The customer\x27s value and the importance of retention.\n  - Competitive pressure and market rates.\n  - The length of the relationship and customer loyalty.\n  - Business pressures (e.g., end of quarter).\n\n  Your response must be a JSON object with the following structure:\n  ```json\n  \x7b\n      \"response\": \"The vendor\x27s email reply\",\n      \"accepted_price\": 450,\n      \"reasoning\": \"Why the vendor made this decision\",\n      \"success\": true\n  \x7d\n  ```\n\n  Be realistic. Vendors typically concede 15–35% on the first reply; avoid going below target on the first hop unless justified.\n</instructions>\n\n<example>\n  <input>\n    <vendor_message>Your renewal is coming up at $1000/month.</vendor_message>\n    <customer_proposal>We\x27re looking for a rate closer to $800/month.</customer_proposal>\n  </input>\n  <output>\n  ```json\n  \x7b\n      \"response\": \"Thanks for reaching out. We can offer a discounted rate of $900/month.\",\n      \"accepted_price\": 900,\n      \"reasoning\": \"Offered a 10% discount to retain a valued customer.\",\n      \"success\": true\n  \x7d\n  ```\n  </output>\n</example>\n"

/-- The strict one-line instruction appended to the proposal prompt on the
orchestrator's second attempt (agent.py line 73). -/
def PROPOSAL_STRICT_SUFFIX : String :=
  "\n\nIMPORTANT: Return ONLY valid JSON with keys: proposal, reasoning, expected_outcome. No other text."

/-- The strict one-line instruction appended to the vendor-simulation prompt
on the second attempt (agent.py line 144). -/
def VENDOR_STRICT_SUFFIX : String :=
  "\n\nIMPORTANT: Return ONLY valid JSON with keys: response, accepted_price, reasoning, success. No other text."

/-- `NegotiationAgent._format_context`: renders the context for the LLM.
Each f-string field access `context[...]` raises `KeyError` when the key is
absent; accesses happen in the f-string's textual order. -/
def format_context (ctx : NegotiationContext) : Except PyErr String :=
  match ctx.vendor_message with
  | none => Except.error (PyErr.keyError "vendor_message")
  | some vm =>
  match ctx.past_price with
  | none => Except.error (PyErr.keyError "past_price")
  | some pp =>
  match ctx.target_price with
  | none => Except.error (PyErr.keyError "target_price")
  | some tp =>
  match ctx.service_type with
  | none => Except.error (PyErr.keyError "service_type")
  | some st =>
  match ctx.relationship with
  | none => Except.error (PyErr.keyError "relationship")
  | some rel =>
    Except.ok ("\n<vendor_message>" ++ vm
      ++ "</vendor_message>\n<current_price>$" ++ pyStr pp
      ++ "/month</current_price>\n<target_price>$" ++ pyStr tp
      ++ "/month</target_price>\n<service_type>" ++ st
      ++ "</service_type>\n<relationship_length>" ++ rel
      ++ "</relationship_length>\n")

/-- `NegotiationAgent._parse_proposal` composed with the pydantic model
`NegotiationProposal` (schemas.py):

    strategy: Literal["polite", "firm", "term_swap"]
    proposal: str  (min_length=10, max_length=1200)
    reasoning: str (min_length=5, max_length=600)
    expected_outcome: str (min_length=3, max_length=300)

All four fields are required (no defaults); extra fields are ignored.
On success `_parse_proposal` renames `proposal` to `content` in the
returned dict.  `none` models the raised `JSONDecodeError`/`ValidationError`. -/
def parse_proposal (raw : RawText) : Option (List (String × JValue)) :=
  match raw with
  | RawText.malformed => none
  | RawText.obj fields =>
    match jgetStr fields "strategy", jgetStr fields "proposal",
        jgetStr fields "reasoning", jgetStr fields "expected_outcome" with
    | some st, some p, some r, some e =>
      if (st = "polite" ∨ st = "firm" ∨ st = "term_swap")
          ∧ 10 ≤ p.length ∧ p.length ≤ 1200
          ∧ 5 ≤ r.length ∧ r.length ≤ 600
          ∧ 3 ≤ e.length ∧ e.length ≤ 300 then
        some [("content", JValue.str p), ("reasoning", JValue.str r),
              ("expected_outcome", JValue.str e)]
      else none
    | _, _, _, _ => none

/-- The `accepted_price` field of `VendorResponse`:
`Optional[float]` with no default — required, but may be `null`. -/
def jgetNumOrNull (fields : List (String × JValue)) (key : String) : Option JValue :=
  match jget fields key with
  | some (JValue.num q) => some (JValue.num q)
  | some JValue.null => some JValue.null
  | _ => none

/-- `NegotiationAgent._parse_vendor_response` composed with the pydantic
model `VendorResponse` (schemas.py):

    response: str (min_length=5, max_length=1200)
    accepted_price: Optional[float]
    reasoning: str (min_length=5, max_length=600)
    success: bool

On success the `response` field is renamed to `content`. -/
def parse_vendor_response (raw : RawText) : Option (List (String × JValue)) :=
  match raw with
  | RawText.malformed => none
  | RawText.obj fields =>
    match jgetStr fields "response", jgetNumOrNull fields "accepted_price",
        jgetStr fields "reasoning", jget fields "success" with
    | some resp, some ap, some r, some (JValue.bool b) =>
      if 5 ≤ resp.length ∧ resp.length ≤ 1200
          ∧ 5 ≤ r.length ∧ r.length ≤ 600 then
        some [("content", JValue.str resp), ("accepted_price", ap),
              ("reasoning", JValue.str r), ("success", JValue.bool b)]
      else none
    | _, _, _, _ => none

/-- One fallback template quadruple (prompts.py `FALLBACK_TEMPLATES` values). -/
structure FallbackTemplate where
  opening : String
  transition : String
  ask : String
  closing : String
deriving DecidableEq

/-- `FALLBACK_TEMPLATES["polite"]`. -/
def polite_template : FallbackTemplate where
  opening := "Thank you for the renewal information. We\x27ve really valued our partnership"
  transition := "Given our current budget planning and the competitive landscape"
  ask := "I was wondering if there might be some flexibility in the pricing"
  closing := "I\x27d love to discuss options that work for both of us"

/-- `FALLBACK_TEMPLATES["firm"]`. -/
def firm_template : FallbackTemplate where
  opening := "I\x27ve received your renewal quote"
  transition := "Based on our research of current market rates and competitive offerings"
  ask := "We have budget approval for [target_price] for this service"
  closing := "Please let me know if you can match this rate by [deadline]"

/-- `FALLBACK_TEMPLATES["term_swap"]`. -/
def term_swap_template : FallbackTemplate where
  opening := "Thanks for the renewal information"
  transition := "Instead of the standard terms, would you consider"
  ask := "We could discuss longer commitment, case studies, or other value-adds"
  closing := "What creative options might work for both of us?"

/-- The `FALLBACK_TEMPLATES` dict (prompts.py), as a partial map. -/
def FALLBACK_TEMPLATES (strategy : String) : Option FallbackTemplate :=
  if strategy = "polite" then some polite_template
  else if strategy = "firm" then some firm_template
  else if strategy = "term_swap" then some term_swap_template
  else none

/-- `context.get('target_price', 'a more competitive rate')` rendered into the
fallback proposal text. -/
def fallback_target_str (ctx : NegotiationContext) : String :=
  match ctx.target_price with
  | some q => pyStr q
  | none => "a more competitive rate"

/-- `NegotiationAgent._get_fallback_proposal`: deterministic template-driven
proposal used when both generative attempts fail.
`FALLBACK_TEMPLATES.get(strategy, FALLBACK_TEMPLATES['polite'])` defaults an
unknown strategy to the polite template. -/
def get_fallback_proposal (strategy : String) (ctx : NegotiationContext) :
    List (String × JValue) :=
  let templates := (FALLBACK_TEMPLATES strategy).getD polite_template
  let content := templates.opening ++ ". " ++ templates.transition ++ ", "
    ++ templates.ask ++ " around $" ++ fallback_target_str ctx ++ "/month. "
    ++ templates.closing ++ "."
  [("content", JValue.str content),
   ("reasoning", JValue.str ("Using " ++ strategy
      ++ " approach with fallback template due to LLM error.")),
   ("expected_outcome", JValue.str "Vendor is likely to be receptive to a discussion.")]

/-- Python's banker's rounding to an integer (`round` rounds half to even). -/
def roundHalfEven (q : ℚ) : ℤ :=
  let f := ⌊q⌋
  if q - f < 1/2 then f
  else if 1/2 < q - f then f + 1
  else if f % 2 = 0 then f else f + 1

/-- Python's `round(x, 2)`: round to 2 decimal places, half to even. -/
def round2 (q : ℚ) : ℚ := (roundHalfEven (q * 100) : ℚ) / 100

/-- `NegotiationAgent._get_fallback_vendor_response`: synthetic vendor reply
used when both simulation attempts fail.  The `random.uniform(0.25, 0.75)`
draw is passed explicitly as `u` (fixed random source); missing prices
default via `context.get("past_price", 1000)` / `context.get("target_price", 800)`. -/
def get_fallback_vendor_response (ctx : NegotiationContext) (u : ℚ) :
    List (String × JValue) :=
  let original_price := ctx.past_price.getD 1000
  let target_price := ctx.target_price.getD 800
  let requested_discount := original_price - target_price
  let actual_discount := requested_discount * u
  let accepted_price := round2 (original_price - actual_discount)
  let response_text := "Thank you for your proposal. After reviewing our options, we can offer a revised rate of $"
    ++ pyStr accepted_price
    ++ "/month. This reflects our commitment to our partnership while maintaining our service quality standards."
  [("content", JValue.str response_text),
   ("accepted_price", JValue.num accepted_price),
   ("reasoning", JValue.str "Fallback simulation: partial concession based on typical vendor behavior."),
   ("success", JValue.bool (decide (accepted_price < original_price)))]

/-- `NegotiationAgent._generate_single_proposal`: two-tier retry-then-fallback
machine for one strategy.  `llm` is the backend oracle, `k` the index of the
next `llm.generate` call (calls are sequential across strategies).  Returns
the next call index, the trace of calls made, and the proposal dict.
The two context lookups model the `context["past_price"]` /
`context["target_price"]` keyword arguments of `PROPOSAL_PROMPT.format`,
which are evaluated (and can raise `KeyError`) although the template has no
matching placeholder. -/
def generate_single_proposal (llm : LLMOracle) (k : Nat) (strategy : String)
    (context_str : String) (ctx : NegotiationContext) :
    Except PyErr (Nat × List CallRec × List (String × JValue)) :=
  match ctx.past_price with
  | none => Except.error (PyErr.keyError "past_price")
  | some _ =>
  match ctx.target_price with
  | none => Except.error (PyErr.keyError "target_price")
  | some _ =>
    let prompt := PROPOSAL_PROMPT_format context_str strategy
    let call1 : CallRec := ⟨SYSTEM_PROMPT, prompt, 0.65⟩
    match (llm k).bind parse_proposal with
    | some proposal_data => Except.ok (k + 1, [call1], proposal_data)
    | none =>
      let strict_prompt := prompt ++ PROPOSAL_STRICT_SUFFIX
      let call2 : CallRec := ⟨SYSTEM_PROMPT, strict_prompt, 0.6⟩
      match (llm (k + 1)).bind parse_proposal with
      | some proposal_data => Except.ok (k + 2, [call1, call2], proposal_data)
      | none => Except.ok (k + 2, [call1, call2], get_fallback_proposal strategy ctx)

/-- The `for strategy in strategies` loop body of `generate_proposals`,
threading the backend call index. -/
def gen_loop (llm : LLMOracle) (ctx : NegotiationContext) (context_str : String) :
    List String → Nat → Except PyErr (List (String × List (String × JValue)))
  | [], _ => Except.ok []
  | strategy :: rest, k =>
    match generate_single_proposal llm k strategy context_str ctx with
    | Except.error e => Except.error e
    | Except.ok (k', _, proposal) =>
      match gen_loop llm ctx context_str rest k' with
      | Except.error e => Except.error e
      | Except.ok out => Except.ok ((strategy, proposal) :: out)

/-- `NegotiationAgent.generate_proposals`: formats the context, then builds
one proposal per strategy in the fixed order polite, firm, term_swap. -/
def generate_proposals (llm : LLMOracle) (ctx : NegotiationContext) :
    Except PyErr (List (String × List (String × JValue))) :=
  match format_context ctx with
  | Except.error e => Except.error e
  | Except.ok context_str =>
    gen_loop llm ctx context_str ["polite", "firm", "term_swap"] 0

/-- `NegotiationAgent.simulate_vendor_response`: the same two-tier machine for
a single simulated vendor reply, at temperatures 0.5 then 0.45.  The dict
accesses in the `VENDOR_SIMULATION_PROMPT.format(...)` argument list are
evaluated in textual order and can raise `KeyError`.  Returns the trace of
backend calls and the vendor reply dict. -/
def simulate_vendor_response (llm : LLMOracle) (u : ℚ) (ctx : NegotiationContext)
    (selected_proposal : List (String × JValue)) :
    Except PyErr (List CallRec × List (String × JValue)) :=
  match ctx.vendor_message with
  | none => Except.error (PyErr.keyError "vendor_message")
  | some vm =>
  match jget selected_proposal "content" with
  | none => Except.error (PyErr.keyError "content")
  | some pc =>
  match ctx.past_price with
  | none => Except.error (PyErr.keyError "past_price")
  | some pp =>
  match ctx.target_price with
  | none => Except.error (PyErr.keyError "target_price")
  | some tp =>
  match ctx.service_type with
  | none => Except.error (PyErr.keyError "service_type")
  | some st =>
  match ctx.relationship with
  | none => Except.error (PyErr.keyError "relationship")
  | some rel =>
    let prompt := VENDOR_SIMULATION_PROMPT_format vm (jvalStr pc) (pyStr pp)
      (pyStr tp) st rel
    let call1 : CallRec := ⟨VENDOR_SYSTEM_PROMPT, prompt, 0.5⟩
    match (llm 0).bind parse_vendor_response with
    | some response_data => Except.ok ([call1], response_data)
    | none =>
      let strict_prompt := prompt ++ VENDOR_STRICT_SUFFIX
      let call2 : CallRec := ⟨VENDOR_SYSTEM_PROMPT, strict_prompt, 0.45⟩
      match (llm 1).bind parse_vendor_response with
      | some response_data => Except.ok ([call1, call2], response_data)
      | none => Except.ok ([call1, call2], get_fallback_vendor_response ctx u)

/-- The provider-level backend of `llm.py`: one entry per raw provider
invocation (OpenAI chat-completions request / Ollama POST), indexed by
invocation count.  `some t` is a transport success delivering text `t`
(before `.strip()`); `none` is any raised exception (timeout, non-2xx
status, connection error, SDK error). -/
abbrev ProviderOracle := Nat → Option String

/-- The engine selected once at `LLMWrapper` construction from `ENGINE`. -/
inductive Engine where
  | openai
  | ollama
deriving DecidableEq

/-- The retry loop shared by tenacity's `stop_after_attempt` and the custom
`_with_retry` wrapper (llm.py): run `f`, and on failure retry up to `n` more
times, threading the provider-invocation counter.  `_with_retry` has
`delays = [0.5, 1.0, 2.0]`, i.e. `n = 3` retries (4 attempts);
`stop_after_attempt(3)` is `n = 2` (3 attempts).  The sleeping backoff
(fixed 0.5/1/2s delays, resp. tenacity's exponential wait with min 4s and
max 10s) does not affect the result and is not modelled. -/
def withRetryN : Nat → (Nat → Nat × Option α) → Nat → Nat × Option α
  | 0, f, s => f s
  | n + 1, f, s =>
    match f s with
    | (s', some a) => (s', some a)
    | (s', none) => withRetryN n f s'

/-- The body of `LLMWrapper._generate_openai` / `_generate_ollama` without its
`_with_retry` decorator: one provider invocation; on transport success the
reply text is `.strip()`ped (`pyStrip`) and returned. -/
def provider_once (oracle : ProviderOracle) (s : Nat) : Nat × Option String :=
  (s + 1, (oracle s).map pyStrip)

/-- `LLMWrapper._generate_openai` (llm.py): `@_with_retry` (4 attempts)
around one OpenAI chat-completions call returning
`response.choices[0].message.content.strip()`. -/
def generate_openai (oracle : ProviderOracle) (s : Nat) : Nat × Option String :=
  withRetryN 3 (provider_once oracle) s

/-- `LLMWrapper._generate_ollama` (llm.py): `@_with_retry` (4 attempts)
around one POST to `/api/generate` returning `result["response"].strip()`
on status 200 (any non-200 status or request exception raises and is a
`none` of the oracle). -/
def generate_ollama (oracle : ProviderOracle) (s : Nat) : Nat × Option String :=
  withRetryN 3 (provider_once oracle) s

/-- The body of `LLMWrapper.generate` without its decorators: dispatch on the
engine, then the response-validation block.  Since both provider functions
return a string, `isinstance(response, str)` is always true and the response
is returned directly — the `VendorResponse.model_validate_json` branch is
dead code, so no schema validation is applied on this path. -/
def LLMWrapper_generate_body (engine : Engine) (oracle : ProviderOracle)
    (s : Nat) : Nat × Option String :=
  match engine with
  | Engine.openai => generate_openai oracle s
  | Engine.ollama => generate_ollama oracle s

/-- `LLMWrapper.generate` (llm.py): the decorator stack
`@retry(stop=stop_after_attempt(3), wait=wait_exponential(multiplier=1, min=4, max=10))`
outside `@_with_retry` (4 attempts), around the body — which itself calls a
`@_with_retry`-wrapped provider function.  Result: the final provider
invocation count and the returned text (`none` = all attempts raised). -/
def LLMWrapper_generate (engine : Engine) (oracle : ProviderOracle)
    (s : Nat) : Nat × Option String :=
  withRetryN 2 (withRetryN 3 (LLMWrapper_generate_body engine oracle)) s

/-- Well-formedness of a proposal dict per spec §3: exactly the keys
`content`, `reasoning`, `expected_outcome`, with the §3 length bounds. -/
def wellFormedProposalDict (d : List (String × JValue)) : Bool :=
  decide (keysOf d = ["content", "reasoning", "expected_outcome"]) &&
  (match jgetStr d "content" with
   | some c => decide (10 ≤ c.length) && decide (c.length ≤ 1200)
   | none => false) &&
  (match jgetStr d "reasoning" with
   | some r => decide (5 ≤ r.length) && decide (r.length ≤ 600)
   | none => false) &&
  (match jgetStr d "expected_outcome" with
   | some e => decide (3 ≤ e.length) && decide (e.length ≤ 300)
   | none => false)

/-- `build_proposal_prompt(context, strategy)` (spec §4.2): the pure prompt
builder — `_format_context` followed by `PROPOSAL_PROMPT.format`. -/
def build_proposal_prompt (ctx : NegotiationContext) (strategy : String) :
    Except PyErr String :=
  (format_context ctx).map fun context_str =>
    PROPOSAL_PROMPT_format context_str strategy

/-- The first backend call attempted by `generate_single_proposal`
(if context rendering got that far). -/
def firstCallOf (r : Except PyErr (Nat × List CallRec × List (String × JValue))) :
    Option CallRec :=
  match r with
  | Except.error _ => none
  | Except.ok (_, calls, _) => calls.head?

/-- The test context of `agent.test_agent` (agent.py). -/
def testContext : NegotiationContext where
  vendor_message := some "Your renewal is coming up at $1000/month for the Pro plan."
  past_price := some 500
  target_price := some 400
  service_type := some "SaaS Subscription"
  relationship := some "1-3 Years"

/-- A syntactically valid context (all five fields present, positive prices)
whose target price has a 1251-digit decimal rendering. -/
def bigPrice : ℚ := ((10 ^ 1250 : ℕ) : ℚ)

/-- `testContext` with the astronomically large target price. -/
def bigContext : NegotiationContext where
  vendor_message := some "Your renewal is coming up at $1000/month for the Pro plan."
  past_price := some 500
  target_price := some bigPrice
  service_type := some "SaaS Subscription"
  relationship := some "1-3 Years"

/-! ### Helper lemmas -/

theorem toDigitsRev_zero (fuel : ℕ) : toDigitsRev fuel 0 = [] := by
  cases fuel <;> simp [toDigitsRev]

theorem toDigitsRev_length (k : ℕ) : ∀ fuel n : ℕ, k + 1 ≤ fuel →
    10 ^ k ≤ n → n < 10 ^ (k + 1) → (toDigitsRev fuel n).length = k + 1 := by
  induction k with
  | zero =>
    intro fuel n hf h1 h2
    obtain ⟨f, rfl⟩ : ∃ f, fuel = f + 1 := ⟨fuel - 1, by omega⟩
    have hn : n ≠ 0 := by simpa using Nat.one_le_iff_ne_zero.mp (by simpa using h1)
    have hd : n / 10 = 0 := Nat.div_eq_of_lt (by simpa using h2)
    simp [toDigitsRev, hn, hd, toDigitsRev_zero]
  | succ k ih =>
    intro fuel n hf h1 h2
    obtain ⟨f, rfl⟩ : ∃ f, fuel = f + 1 := ⟨fuel - 1, by omega⟩
    have hpow : (1:ℕ) ≤ 10 ^ (k + 1) := Nat.one_le_pow _ _ (by norm_num)
    have hn : n ≠ 0 := by omega
    have hlo : 10 ^ k ≤ n / 10 := by
      rw [Nat.le_div_iff_mul_le (by norm_num)]
      calc 10 ^ k * 10 = 10 ^ (k + 1) := (pow_succ 10 k).symm
      _ ≤ n := h1
    have hhi : n / 10 < 10 ^ (k + 1) := by
      rw [Nat.div_lt_iff_lt_mul (by norm_num)]
      calc n < 10 ^ (k + 1 + 1) := h2
      _ = 10 ^ (k + 1) * 10 := pow_succ 10 (k + 1)
    have := ih f (n / 10) (by omega) hlo hhi
    simp [toDigitsRev, hn, this]

theorem pyStrNat_length (k n : ℕ) (h1 : 10 ^ k ≤ n) (h2 : n < 10 ^ (k + 1)) :
    (pyStrNat n).length = k + 1 := by
  have hpow : (1:ℕ) ≤ 10 ^ k := Nat.one_le_pow _ _ (by norm_num)
  have hn : n ≠ 0 := by omega
  have hk : k ≤ n := le_trans (le_of_lt (Nat.lt_pow_self (by norm_num) k)) h1
  show (if n = 0 then "0"
    else String.mk ((toDigitsRev (n + 1) n).reverse.map fun d => Char.ofNat (48 + d))).length
      = k + 1
  rw [if_neg hn]
  show ((toDigitsRev (n + 1) n).reverse.map fun d => Char.ofNat (48 + d)).length = k + 1
  rw [List.length_map, List.length_reverse]
  exact toDigitsRev_length k (n + 1) n (by omega) h1 h2

theorem pyStr_natCast_length (k n : ℕ) (h1 : 10 ^ k ≤ n) (h2 : n < 10 ^ (k + 1)) :
    (pyStr (n : ℚ)).length = k + 1 := by
  have hden : ((n : ℚ)).den = 1 := Rat.den_natCast n
  have hnum : ((n : ℚ)).num = (n : ℤ) := Rat.num_natCast n
  have hneg : ¬ ((n : ℚ)).num < 0 := by rw [hnum]; exact of_decide_eq_false (by simp)
  unfold pyStr
  rw [if_pos hden, if_neg hneg, hnum, Int.natAbs_ofNat]
  exact pyStrNat_length k n h1 h2

theorem roundHalfEven_le (q : ℚ) (b : ℤ) (hq : q ≤ (b : ℚ)) : roundHalfEven q ≤ b := by
  have hfl : ⌊q⌋ ≤ b := Int.floor_le_floor hq |>.trans_eq (Int.floor_intCast b)
  have hfl2 : (⌊q⌋ : ℚ) ≤ q := Int.floor_le q
  simp only [roundHalfEven]
  split_ifs with hlt heq hev
  · exact hfl
  · -- q - ⌊q⌋ > 1/2, result ⌊q⌋ + 1
    have : ((⌊q⌋ + 1 : ℤ) : ℚ) < (b : ℚ) + 1 := by push_cast; linarith
    exact_mod_cast Int.lt_add_one_iff.mp (by exact_mod_cast this)
  · exact hfl
  · -- tie, ⌊q⌋ odd, result ⌊q⌋ + 1; here q - ⌊q⌋ = 1/2
    have htie : q - (⌊q⌋ : ℚ) = 1/2 := le_antisymm (not_lt.mp heq) (not_lt.mp hlt)
    have : ((⌊q⌋ + 1 : ℤ) : ℚ) < (b : ℚ) + 1 := by push_cast; linarith
    exact_mod_cast Int.lt_add_one_iff.mp (by exact_mod_cast this)

theorem roundHalfEven_ge (q : ℚ) (a : ℤ) (hq : (a : ℚ) ≤ q) : a ≤ roundHalfEven q := by
  have hfl : a ≤ ⌊q⌋ := Int.le_floor.mpr hq
  simp only [roundHalfEven]
  split_ifs <;> omega

theorem round2_le (q : ℚ) (b : ℤ) (hq : q ≤ (b : ℚ)) : round2 q ≤ (b : ℚ) := by
  have h1 : roundHalfEven (q * 100) ≤ b * 100 := by
    apply roundHalfEven_le
    push_cast
    linarith
  unfold round2
  rw [div_le_iff₀ (by norm_num)]
  exact_mod_cast by exact_mod_cast h1

theorem round2_ge (q : ℚ) (a : ℤ) (hq : (a : ℚ) ≤ q) : (a : ℚ) ≤ round2 q := by
  have h1 : a * 100 ≤ roundHalfEven (q * 100) := by
    apply roundHalfEven_ge
    push_cast
    linarith
  unfold round2
  rw [le_div_iff₀ (by norm_num)]
  exact_mod_cast by exact_mod_cast h1

theorem jget_cons (k : String) (v : JValue) (rest : List (String × JValue)) (key : String) :
    jget ((k, v) :: rest) key = if k = key then some v else jget rest key := rfl

theorem parse_proposal_shape {raw : RawText} {d : List (String × JValue)}
    (h : parse_proposal raw = some d) :
    ∃ p r e, d = [("content", JValue.str p), ("reasoning", JValue.str r),
        ("expected_outcome", JValue.str e)]
      ∧ 10 ≤ p.length ∧ p.length ≤ 1200 ∧ 5 ≤ r.length ∧ r.length ≤ 600
      ∧ 3 ≤ e.length ∧ e.length ≤ 300 := by
  cases raw with
  | malformed => exact Option.noConfusion h
  | obj fields =>
    rcases hst : jgetStr fields "strategy" with _ | st <;>
      rcases hp : jgetStr fields "proposal" with _ | p <;>
      rcases hr : jgetStr fields "reasoning" with _ | r <;>
      rcases he : jgetStr fields "expected_outcome" with _ | e <;>
      simp only [parse_proposal, hst, hp, hr, he] at h <;>
      try exact Option.noConfusion h
    split_ifs at h with hcond
    obtain ⟨hstv, h10, h1200, h5, h600, h3, h300⟩ := hcond
    exact ⟨p, r, e, (Option.some.inj h).symm, h10, h1200, h5, h600, h3, h300⟩

theorem parse_vendor_shape {raw : RawText} {d : List (String × JValue)}
    (h : parse_vendor_response raw = some d) :
    ∃ resp ap r b, d = [("content", JValue.str resp), ("accepted_price", ap),
        ("reasoning", JValue.str r), ("success", JValue.bool b)]
      ∧ 5 ≤ resp.length ∧ resp.length ≤ 1200 ∧ 5 ≤ r.length ∧ r.length ≤ 600 := by
  cases raw with
  | malformed => exact Option.noConfusion h
  | obj fields =>
    rcases hresp : jgetStr fields "response" with _ | resp <;>
      rcases hap : jgetNumOrNull fields "accepted_price" with _ | ap <;>
      rcases hr : jgetStr fields "reasoning" with _ | r <;>
      rcases hsu : jget fields "success" with _ | sv <;>
      (try cases sv) <;>
      simp only [parse_vendor_response, hresp, hap, hr, hsu] at h <;>
      try exact Option.noConfusion h
    rename_i b
    split_ifs at h with hcond
    obtain ⟨h5, h1200, h5r, h600⟩ := hcond
    exact ⟨resp, ap, r, b, (Option.some.inj h).symm, h5, h1200, h5r, h600⟩

theorem wellFormed_of_bounds (p r e : String)
    (h10 : 10 ≤ p.length) (h1200 : p.length ≤ 1200)
    (h5 : 5 ≤ r.length) (h600 : r.length ≤ 600)
    (h3 : 3 ≤ e.length) (h300 : e.length ≤ 300) :
    wellFormedProposalDict [("content", JValue.str p), ("reasoning", JValue.str r),
      ("expected_outcome", JValue.str e)] = true := by
  simp [wellFormedProposalDict, keysOf, jgetStr, jget, h10, h1200, h5, h600, h3, h300]

theorem parse_proposal_wf {raw : RawText} {d : List (String × JValue)}
    (h : parse_proposal raw = some d) : wellFormedProposalDict d = true := by
  obtain ⟨p, r, e, rfl, h10, h1200, h5, h600, h3, h300⟩ := parse_proposal_shape h
  exact wellFormed_of_bounds p r e h10 h1200 h5 h600 h3 h300

theorem get_fallback_proposal_eq (strategy : String) (ctx : NegotiationContext) :
    get_fallback_proposal strategy ctx =
      [("content", JValue.str
          (((FALLBACK_TEMPLATES strategy).getD polite_template).opening ++ ". "
            ++ ((FALLBACK_TEMPLATES strategy).getD polite_template).transition ++ ", "
            ++ ((FALLBACK_TEMPLATES strategy).getD polite_template).ask ++ " around $"
            ++ fallback_target_str ctx ++ "/month. "
            ++ ((FALLBACK_TEMPLATES strategy).getD polite_template).closing ++ ".")),
       ("reasoning", JValue.str ("Using " ++ strategy
          ++ " approach with fallback template due to LLM error.")),
       ("expected_outcome", JValue.str
          "Vendor is likely to be receptive to a discussion.")] := rfl

theorem length_fallback_content (t : FallbackTemplate) (s : String) :
    (t.opening ++ ". " ++ t.transition ++ ", " ++ t.ask ++ " around $" ++ s
        ++ "/month. " ++ t.closing ++ ".").length
      = t.opening.length + t.transition.length + t.ask.length + t.closing.length
        + s.length + 22 := by
  simp only [String.length_append]
  have h1 : (". " : String).length = 2 := rfl
  have h2 : (", " : String).length = 2 := rfl
  have h3 : (" around $" : String).length = 9 := rfl
  have h4 : ("/month. " : String).length = 8 := rfl
  have h5 : ("." : String).length = 1 := rfl
  omega

theorem fallback_target_str_of_some (ctx : NegotiationContext) (tp : ℚ)
    (htp : ctx.target_price = some tp) : fallback_target_str ctx = pyStr tp := by
  simp [fallback_target_str, htp]

theorem fallback_wf (strategy : String)
    (hs : strategy = "polite" ∨ strategy = "firm" ∨ strategy = "term_swap")
    (ctx : NegotiationContext) (tp : ℚ) (htp : ctx.target_price = some tp)
    (hlen : (pyStr tp).length ≤ 900) :
    wellFormedProposalDict (get_fallback_proposal strategy ctx) = true := by
  have hts := fallback_target_str_of_some ctx tp htp
  rcases hs with rfl | rfl | rfl <;>
    rw [get_fallback_proposal_eq] <;>
    apply wellFormed_of_bounds <;>
    try decide
  all_goals rw [length_fallback_content, hts]
  · have : ((FALLBACK_TEMPLATES "polite").getD polite_template).opening.length
        + ((FALLBACK_TEMPLATES "polite").getD polite_template).transition.length
        + ((FALLBACK_TEMPLATES "polite").getD polite_template).ask.length
        + ((FALLBACK_TEMPLATES "polite").getD polite_template).closing.length = 254 := by
      decide
    omega
  · have : ((FALLBACK_TEMPLATES "polite").getD polite_template).opening.length
        + ((FALLBACK_TEMPLATES "polite").getD polite_template).transition.length
        + ((FALLBACK_TEMPLATES "polite").getD polite_template).ask.length
        + ((FALLBACK_TEMPLATES "polite").getD polite_template).closing.length = 254 := by
      decide
    omega
  · have : ((FALLBACK_TEMPLATES "firm").getD polite_template).opening.length
        + ((FALLBACK_TEMPLATES "firm").getD polite_template).transition.length
        + ((FALLBACK_TEMPLATES "firm").getD polite_template).ask.length
        + ((FALLBACK_TEMPLATES "firm").getD polite_template).closing.length = 221 := by
      decide
    omega
  · have : ((FALLBACK_TEMPLATES "firm").getD polite_template).opening.length
        + ((FALLBACK_TEMPLATES "firm").getD polite_template).transition.length
        + ((FALLBACK_TEMPLATES "firm").getD polite_template).ask.length
        + ((FALLBACK_TEMPLATES "firm").getD polite_template).closing.length = 221 := by
      decide
    omega
  · have : ((FALLBACK_TEMPLATES "term_swap").getD polite_template).opening.length
        + ((FALLBACK_TEMPLATES "term_swap").getD polite_template).transition.length
        + ((FALLBACK_TEMPLATES "term_swap").getD polite_template).ask.length
        + ((FALLBACK_TEMPLATES "term_swap").getD polite_template).closing.length = 200 := by
      decide
    omega
  · have : ((FALLBACK_TEMPLATES "term_swap").getD polite_template).opening.length
        + ((FALLBACK_TEMPLATES "term_swap").getD polite_template).transition.length
        + ((FALLBACK_TEMPLATES "term_swap").getD polite_template).ask.length
        + ((FALLBACK_TEMPLATES "term_swap").getD polite_template).closing.length = 200 := by
      decide
    omega

theorem format_context_eq (ctx : NegotiationContext) (vm : String) (pp tp : ℚ)
    (st rel : String) (h1 : ctx.vendor_message = some vm)
    (h2 : ctx.past_price = some pp) (h3 : ctx.target_price = some tp)
    (h4 : ctx.service_type = some st) (h5 : ctx.relationship = some rel) :
    format_context ctx = Except.ok ("\n<vendor_message>" ++ vm
      ++ "</vendor_message>\n<current_price>$" ++ pyStr pp
      ++ "/month</current_price>\n<target_price>$" ++ pyStr tp
      ++ "/month</target_price>\n<service_type>" ++ st
      ++ "</service_type>\n<relationship_length>" ++ rel
      ++ "</relationship_length>\n") := by
  simp only [format_context, h1, h2, h3, h4, h5]

theorem genSingle_eq (llm : LLMOracle) (k : Nat) (strategy cs : String)
    (ctx : NegotiationContext) (pp tp : ℚ)
    (hpp : ctx.past_price = some pp) (htp : ctx.target_price = some tp) :
    generate_single_proposal llm k strategy cs ctx =
      match (llm k).bind parse_proposal with
      | some p => Except.ok (k + 1,
          [⟨SYSTEM_PROMPT, PROPOSAL_PROMPT_format cs strategy, 0.65⟩], p)
      | none =>
        match (llm (k + 1)).bind parse_proposal with
        | some p => Except.ok (k + 2,
            [⟨SYSTEM_PROMPT, PROPOSAL_PROMPT_format cs strategy, 0.65⟩,
             ⟨SYSTEM_PROMPT, PROPOSAL_PROMPT_format cs strategy ++ PROPOSAL_STRICT_SUFFIX, 0.6⟩],
            p)
        | none => Except.ok (k + 2,
            [⟨SYSTEM_PROMPT, PROPOSAL_PROMPT_format cs strategy, 0.65⟩,
             ⟨SYSTEM_PROMPT, PROPOSAL_PROMPT_format cs strategy ++ PROPOSAL_STRICT_SUFFIX, 0.6⟩],
            get_fallback_proposal strategy ctx) := by
  simp only [generate_single_proposal, hpp, htp]

theorem simulate_eq (llm : LLMOracle) (u : ℚ) (ctx : NegotiationContext)
    (sel : List (String × JValue)) (vm : String) (pc : JValue) (pp tp : ℚ)
    (st rel : String) (h1 : ctx.vendor_message = some vm)
    (hsel : jget sel "content" = some pc)
    (h2 : ctx.past_price = some pp) (h3 : ctx.target_price = some tp)
    (h4 : ctx.service_type = some st) (h5 : ctx.relationship = some rel) :
    simulate_vendor_response llm u ctx sel =
      match (llm 0).bind parse_vendor_response with
      | some r => Except.ok
          ([⟨VENDOR_SYSTEM_PROMPT,
             VENDOR_SIMULATION_PROMPT_format vm (jvalStr pc) (pyStr pp) (pyStr tp) st rel,
             0.5⟩], r)
      | none =>
        match (llm 1).bind parse_vendor_response with
        | some r => Except.ok
            ([⟨VENDOR_SYSTEM_PROMPT,
               VENDOR_SIMULATION_PROMPT_format vm (jvalStr pc) (pyStr pp) (pyStr tp) st rel,
               0.5⟩,
              ⟨VENDOR_SYSTEM_PROMPT,
               VENDOR_SIMULATION_PROMPT_format vm (jvalStr pc) (pyStr pp) (pyStr tp) st rel
                 ++ VENDOR_STRICT_SUFFIX, 0.45⟩], r)
        | none => Except.ok
            ([⟨VENDOR_SYSTEM_PROMPT,
               VENDOR_SIMULATION_PROMPT_format vm (jvalStr pc) (pyStr pp) (pyStr tp) st rel,
               0.5⟩,
              ⟨VENDOR_SYSTEM_PROMPT,
               VENDOR_SIMULATION_PROMPT_format vm (jvalStr pc) (pyStr pp) (pyStr tp) st rel
                 ++ VENDOR_STRICT_SUFFIX, 0.45⟩],
             get_fallback_vendor_response ctx u) := by
  simp only [simulate_vendor_response, h1, hsel, h2, h3, h4, h5]

theorem genSingle_ok_wf (llm : LLMOracle) (k : Nat) (strategy cs : String)
    (ctx : NegotiationContext) (pp tp : ℚ)
    (hpp : ctx.past_price = some pp) (htp : ctx.target_price = some tp)
    (hs : strategy = "polite" ∨ strategy = "firm" ∨ strategy = "term_swap")
    (hlen : (pyStr tp).length ≤ 900) :
    ∃ k' calls d, generate_single_proposal llm k strategy cs ctx
        = Except.ok (k', calls, d) ∧ wellFormedProposalDict d = true := by
  rw [genSingle_eq llm k strategy cs ctx pp tp hpp htp]
  rcases hb1 : (llm k).bind parse_proposal with _ | p
  · rcases hb2 : (llm (k + 1)).bind parse_proposal with _ | p
    · exact ⟨_, _, _, rfl, fallback_wf strategy hs ctx tp htp hlen⟩
    · obtain ⟨raw, _, hp⟩ := Option.bind_eq_some.mp hb2
      exact ⟨_, _, _, rfl, parse_proposal_wf hp⟩
  · obtain ⟨raw, _, hp⟩ := Option.bind_eq_some.mp hb1
    exact ⟨_, _, _, rfl, parse_proposal_wf hp⟩

theorem genSingle_keys (llm : LLMOracle) (k : Nat) (strategy cs : String)
    (ctx : NegotiationContext) (k' : Nat) (calls : List CallRec)
    (d : List (String × JValue))
    (h : generate_single_proposal llm k strategy cs ctx = Except.ok (k', calls, d)) :
    keysOf d = ["content", "reasoning", "expected_outcome"] := by
  unfold generate_single_proposal at h
  rcases hpp : ctx.past_price with _ | pp <;> rw [hpp] at h
  · exact Except.noConfusion h
  rcases htp : ctx.target_price with _ | tp <;> rw [htp] at h
  · exact Except.noConfusion h
  rcases hb1 : (llm k).bind parse_proposal with _ | p <;> simp only [hb1] at h
  · rcases hb2 : (llm (k + 1)).bind parse_proposal with _ | p <;> simp only [hb2] at h
    · obtain ⟨_, _, rfl⟩ := Except.ok.inj h
      rw [get_fallback_proposal_eq]
      rfl
    · obtain ⟨_, _, rfl⟩ := Except.ok.inj h
      obtain ⟨raw, _, hp⟩ := Option.bind_eq_some.mp hb2
      obtain ⟨p', r', e', rfl, _⟩ := parse_proposal_shape hp
      rfl
  · obtain ⟨_, _, rfl⟩ := Except.ok.inj h
    obtain ⟨raw, _, hp⟩ := Option.bind_eq_some.mp hb1
    obtain ⟨p', r', e', rfl, _⟩ := parse_proposal_shape hp
    rfl

theorem vendor_keys_of_parse {raw : RawText} {d : List (String × JValue)}
    (h : parse_vendor_response raw = some d) :
    keysOf d = ["content", "accepted_price", "reasoning", "success"] := by
  obtain ⟨resp, ap, r, b, rfl, _⟩ := parse_vendor_shape h
  rfl

theorem fallback_vendor_keys (ctx : NegotiationContext) (u : ℚ) :
    keysOf (get_fallback_vendor_response ctx u)
      = ["content", "accepted_price", "reasoning", "success"] := rfl

theorem simulate_ok_keys (llm : LLMOracle) (u : ℚ) (ctx : NegotiationContext)
    (sel : List (String × JValue)) (vm : String) (pc : JValue) (pp tp : ℚ)
    (st rel : String) (h1 : ctx.vendor_message = some vm)
    (hsel : jget sel "content" = some pc)
    (h2 : ctx.past_price = some pp) (h3 : ctx.target_price = some tp)
    (h4 : ctx.service_type = some st) (h5 : ctx.relationship = some rel) :
    ∃ calls reply, simulate_vendor_response llm u ctx sel = Except.ok (calls, reply)
      ∧ keysOf reply = ["content", "accepted_price", "reasoning", "success"] := by
  rw [simulate_eq llm u ctx sel vm pc pp tp st rel h1 hsel h2 h3 h4 h5]
  rcases hb1 : (llm 0).bind parse_vendor_response with _ | r
  · rcases hb2 : (llm 1).bind parse_vendor_response with _ | r
    · exact ⟨_, _, rfl, fallback_vendor_keys ctx u⟩
    · obtain ⟨raw, _, hr⟩ := Option.bind_eq_some.mp hb2
      exact ⟨_, _, rfl, vendor_keys_of_parse hr⟩
  · obtain ⟨raw, _, hr⟩ := Option.bind_eq_some.mp hb1
    exact ⟨_, _, rfl, vendor_keys_of_parse hr⟩

theorem simulate_keys (llm : LLMOracle) (u : ℚ) (ctx : NegotiationContext)
    (sel : List (String × JValue)) (calls : List CallRec)
    (reply : List (String × JValue))
    (h : simulate_vendor_response llm u ctx sel = Except.ok (calls, reply)) :
    keysOf reply = ["content", "accepted_price", "reasoning", "success"] := by
  unfold simulate_vendor_response at h
  rcases hvm : ctx.vendor_message with _ | vm <;> rw [hvm] at h
  · exact Except.noConfusion h
  rcases hsel : jget sel "content" with _ | pc <;> rw [hsel] at h
  · exact Except.noConfusion h
  rcases hpp : ctx.past_price with _ | pp <;> rw [hpp] at h
  · exact Except.noConfusion h
  rcases htp : ctx.target_price with _ | tp <;> rw [htp] at h
  · exact Except.noConfusion h
  rcases hst : ctx.service_type with _ | st <;> rw [hst] at h
  · exact Except.noConfusion h
  rcases hrel : ctx.relationship with _ | rel <;> rw [hrel] at h
  · exact Except.noConfusion h
  rcases hb1 : (llm 0).bind parse_vendor_response with _ | r <;> simp only [hb1] at h
  · rcases hb2 : (llm 1).bind parse_vendor_response with _ | r <;> simp only [hb2] at h
    · obtain ⟨_, rfl⟩ := Except.ok.inj h
      exact fallback_vendor_keys ctx u
    · obtain ⟨_, rfl⟩ := Except.ok.inj h
      obtain ⟨raw, _, hr⟩ := Option.bind_eq_some.mp hb2
      exact vendor_keys_of_parse hr
  · obtain ⟨_, rfl⟩ := Except.ok.inj h
    obtain ⟨raw, _, hr⟩ := Option.bind_eq_some.mp hb1
    exact vendor_keys_of_parse hr

theorem gen_loop_keys (llm : LLMOracle) (ctx : NegotiationContext) (cs : String) :
    ∀ (L : List String) (k : Nat) (out : List (String × List (String × JValue))),
      gen_loop llm ctx cs L k = Except.ok out →
      ∀ e ∈ out, keysOf e.2 = ["content", "reasoning", "expected_outcome"] := by
  intro L
  induction L with
  | nil =>
    intro k out h e he
    obtain rfl := Except.ok.inj h
    exact absurd he (List.not_mem_nil e)
  | cons s rest ih =>
    intro k out h e he
    unfold gen_loop at h
    rcases hg : generate_single_proposal llm k s cs ctx with e' | ⟨k', calls, d⟩ <;>
      rw [hg] at h
    · exact Except.noConfusion h
    rcases hrest : gen_loop llm ctx cs rest k' with e' | out' <;> simp only [hrest] at h
    · exact Except.noConfusion h
    obtain rfl := Except.ok.inj h
    rcases List.mem_cons.mp he with rfl | hmem
    · exact genSingle_keys llm k s cs ctx k' calls d hg
    · exact ih k' out' hrest e hmem

theorem pyStr_bigPrice_length : (pyStr bigPrice).length = 1251 := by
  have h2 : (10:ℕ) ^ 1250 < 10 ^ (1250 + 1) :=
    Nat.pow_lt_pow_right (by norm_num) (by norm_num)
  exact pyStr_natCast_length 1250 (10 ^ 1250) (le_refl _) h2

theorem withRetryN_fst_le {α : Type} (f : Nat → Nat × Option α) (c : ℕ)
    (hf : ∀ s, (f s).1 ≤ s + c) :
    ∀ n s, (withRetryN n f s).1 ≤ s + (n + 1) * c := by
  intro n
  induction n with
  | zero => intro s; simpa using hf s
  | succ n ih =>
    intro s
    have hM : c + (n + 1) * c = (n + 1 + 1) * c := by ring
    rcases hfs : f s with ⟨s', r⟩
    have hs' : s' ≤ s + c := by
      have := hf s
      rw [hfs] at this
      simpa using this
    cases r with
    | some a =>
      simp only [withRetryN, hfs]
      omega
    | none =>
      simp only [withRetryN, hfs]
      have := ih s'
      omega

theorem withRetryN_fst_ge {α : Type} (f : Nat → Nat × Option α)
    (hf : ∀ s, s ≤ (f s).1) :
    ∀ n s, s ≤ (withRetryN n f s).1 := by
  intro n
  induction n with
  | zero => intro s; simpa using hf s
  | succ n ih =>
    intro s
    rcases hfs : f s with ⟨s', r⟩
    have hs' : s ≤ s' := by
      have := hf s
      rw [hfs] at this
      simpa using this
    cases r with
    | some a => simp only [withRetryN, hfs]; omega
    | none =>
      simp only [withRetryN, hfs]
      have := ih s'
      omega

theorem withRetryN_success (o : ProviderOracle) (f : Nat → Nat × Option String)
    (hf1 : ∀ s, s ≤ (f s).1)
    (hf : ∀ s t, (f s).2 = some t → ∃ j u, s ≤ j ∧ o j = some u ∧ t = pyStrip u) :
    ∀ n s t, (withRetryN n f s).2 = some t →
      ∃ j u, s ≤ j ∧ o j = some u ∧ t = pyStrip u := by
  intro n
  induction n with
  | zero => intro s t h; exact hf s t (by simpa [withRetryN] using h)
  | succ n ih =>
    intro s t h
    rcases hfs : f s with ⟨s', r⟩
    have hs' : s ≤ s' := by
      have := hf1 s
      rw [hfs] at this
      simpa using this
    cases r with
    | some a =>
      simp only [withRetryN, hfs] at h
      exact hf s t (by rw [hfs]; simpa using h)
    | none =>
      simp only [withRetryN, hfs] at h
      obtain ⟨j, u, hj, hu, ht⟩ := ih s' t h
      exact ⟨j, u, le_trans hs' hj, hu, ht⟩

theorem provider_once_fst (o : ProviderOracle) (s : Nat) :
    (provider_once o s).1 = s + 1 := rfl

theorem provider_once_success (o : ProviderOracle) :
    ∀ s t, (provider_once o s).2 = some t →
      ∃ j u, s ≤ j ∧ o j = some u ∧ t = pyStrip u := by
  intro s t h
  rcases ho : o s with _ | u
  · rw [show (provider_once o s).2 = (o s).map pyStrip from rfl, ho] at h
    exact Option.noConfusion h
  · rw [show (provider_once o s).2 = (o s).map pyStrip from rfl, ho] at h
    exact ⟨s, u, le_refl s, ho, (Option.some.inj h).symm⟩

theorem provider_once_fst_le (o : ProviderOracle) (s : Nat) :
    (provider_once o s).1 ≤ s + 1 := Nat.le_of_eq (provider_once_fst o s)

theorem provider_once_fst_ge (o : ProviderOracle) (s : Nat) :
    s ≤ (provider_once o s).1 := by
  rw [provider_once_fst]
  omega

theorem generate_body_fst_le (e : Engine) (o : ProviderOracle) (s : Nat) :
    (LLMWrapper_generate_body e o s).1 ≤ s + 4 := by
  have h := withRetryN_fst_le (provider_once o) 1 (provider_once_fst_le o) 3 s
  cases e <;> simpa using h

theorem generate_body_fst_ge (e : Engine) (o : ProviderOracle) (s : Nat) :
    s ≤ (LLMWrapper_generate_body e o s).1 := by
  have h := withRetryN_fst_ge (provider_once o) (provider_once_fst_ge o) 3 s
  cases e <;> simpa using h

theorem generate_body_success (e : Engine) (o : ProviderOracle) :
    ∀ s t, (LLMWrapper_generate_body e o s).2 = some t →
      ∃ j u, s ≤ j ∧ o j = some u ∧ t = pyStrip u := by
  have h := withRetryN_success o (provider_once o) (provider_once_fst_ge o)
    (provider_once_success o) 3
  cases e <;> exact h

/-! ### Claim theorems -/

/-- C3: contrary to the claim, a backend reply that is exactly the JSON object
the prompts instruct — the three keys `proposal`/`reasoning`/`expected_outcome`
with in-bounds string values — fails validation, because the pydantic model
also requires a `strategy` field; adding `"strategy": "polite"` makes the same
object validate, and (second half of the claim, which does hold) a 9-character
`proposal` is rejected even with the strategy field present. -/
theorem C3_strategy_field_required :
    parse_proposal (RawText.obj
        [("proposal", JValue.str "0123456789"),
         ("reasoning", JValue.str "12345"),
         ("expected_outcome", JValue.str "123")]) = none
    ∧ parse_proposal (RawText.obj
        [("strategy", JValue.str "polite"),
         ("proposal", JValue.str "0123456789"),
         ("reasoning", JValue.str "12345"),
         ("expected_outcome", JValue.str "123")])
      = some [("content", JValue.str "0123456789"),
              ("reasoning", JValue.str "12345"),
              ("expected_outcome", JValue.str "123")]
    ∧ parse_proposal (RawText.obj
        [("strategy", JValue.str "polite"),
         ("proposal", JValue.str "123456789"),
         ("reasoning", JValue.str "12345"),
         ("expected_outcome", JValue.str "123")]) = none
    ∧ parse_proposal RawText.malformed = none := by
  refine ⟨by decide, by decide, by decide, rfl⟩

/-- C4 (amended): one call to the adapter's `generate` invokes the underlying
provider at most 48 times — the product of the three stacked retry layers
(tenacity 3 attempts × `_with_retry` 4 attempts on `generate` ×
`_with_retry` 4 attempts on the provider function) — not 3. -/
theorem C4_adapter_call_bound (e : Engine) (o : ProviderOracle) (s : Nat) :
    (LLMWrapper_generate e o s).1 ≤ s + 48 := by
  have hinner : ∀ s', (withRetryN 3 (LLMWrapper_generate_body e o) s').1 ≤ s' + 16 := by
    intro s'
    have h := withRetryN_fst_le (LLMWrapper_generate_body e o) 4
      (generate_body_fst_le e o) 3 s'
    simpa using h
  have h := withRetryN_fst_le (withRetryN 3 (LLMWrapper_generate_body e o)) 16 hinner 2 s
  simpa [LLMWrapper_generate] using h

/-- C4 counterexample: with a provider that always fails at the transport
level, a single `generate` call invokes the provider exactly 48 times before
giving up — refuting the claimed bound of 3 attempts total. -/
theorem C4_counterexample :
    LLMWrapper_generate Engine.openai (fun _ => none) 0 = (48, none)
    ∧ ¬ ((LLMWrapper_generate Engine.openai (fun _ => none) 0).1 ≤ 3) := by
  exact ⟨by decide, by decide⟩

/-- C6 (amended): whenever the adapter's `generate` returns rather than
raising, the returned value is some provider invocation's raw text with
surrounding whitespace stripped and no proposal/vendor-response schema
enforcement applied; it is NOT guaranteed non-empty (see the
counterexample). -/
theorem C6_returns_stripped_provider_text (e : Engine) (o : ProviderOracle)
    (s : Nat) (t : String) (h : (LLMWrapper_generate e o s).2 = some t) :
    ∃ j u, s ≤ j ∧ o j = some u ∧ t = pyStrip u := by
  have hge : ∀ s', s' ≤ (withRetryN 3 (LLMWrapper_generate_body e o) s').1 :=
    fun s' => withRetryN_fst_ge (LLMWrapper_generate_body e o)
      (generate_body_fst_ge e o) 3 s'
  have hsucc := withRetryN_success o (LLMWrapper_generate_body e o)
    (generate_body_fst_ge e o) (generate_body_success e o) 3
  exact withRetryN_success o (withRetryN 3 (LLMWrapper_generate_body e o))
    hge hsucc 2 s t h

/-- C6 witness: a provider success `" pong "` is returned stripped as
`"pong"`, untouched by any schema check. -/
theorem C6_returns_stripped_provider_text_witness :
    ∃ j u, 0 ≤ j ∧ (fun (_ : Nat) => some " pong ") j = some u ∧ "pong" = pyStrip u :=
  C6_returns_stripped_provider_text Engine.openai (fun _ => some " pong ") 0 "pong"
    (by decide)

/-- C6 counterexample: a whitespace-only provider reply is returned as the
empty string, refuting the claimed non-emptiness guarantee. -/
theorem C6_counterexample :
    (LLMWrapper_generate Engine.openai (fun _ => some "   ") 0).2 = some ""
    ∧ ("" : String).length = 0 := by
  exact ⟨by decide, rfl⟩

/-- C7: a context missing any of the five required fields makes
`generate_proposals` raise a `KeyError` naming a missing key — the error is
not recovered into a Proposal by the retry/fallback machinery. -/
theorem C7_missing_key_raises (llm : LLMOracle) (ctx : NegotiationContext)
    (h : ctx.vendor_message = none ∨ ctx.past_price = none
      ∨ ctx.target_price = none ∨ ctx.service_type = none
      ∨ ctx.relationship = none) :
    ∃ key, generate_proposals llm ctx = Except.error (PyErr.keyError key)
      ∧ ctxMissing ctx key = true := by
  unfold generate_proposals format_context
  rcases hvm : ctx.vendor_message with _ | vm
  · exact ⟨"vendor_message", by simp [hvm], by simp [ctxMissing, hvm]⟩
  rcases hpp : ctx.past_price with _ | pp
  · exact ⟨"past_price", by simp [hvm, hpp], by simp [ctxMissing, hpp]⟩
  rcases htp : ctx.target_price with _ | tp
  · exact ⟨"target_price", by simp [hvm, hpp, htp], by simp [ctxMissing, htp]⟩
  rcases hst : ctx.service_type with _ | st
  · exact ⟨"service_type", by simp [hvm, hpp, htp, hst], by simp [ctxMissing, hst]⟩
  rcases hrel : ctx.relationship with _ | rel
  · exact ⟨"relationship", by simp [hvm, hpp, htp, hst, hrel],
      by simp [ctxMissing, hrel]⟩
  simp [hvm, hpp, htp, hst, hrel] at h

/-- C7 witness: the test context with `relationship` removed fails with a
`KeyError` on a key that is indeed missing. -/
theorem C7_missing_key_raises_witness :
    ∃ key, generate_proposals (fun _ => none)
        ⟨some "Your renewal is coming up at $1000/month for the Pro plan.",
         some 500, some 400, some "SaaS Subscription", none⟩
      = Except.error (PyErr.keyError key)
      ∧ ctxMissing ⟨some "Your renewal is coming up at $1000/month for the Pro plan.",
         some 500, some 400, some "SaaS Subscription", none⟩ key = true :=
  C7_missing_key_raises (fun _ => none) _ (by simp)

/-- C8: prompt building is pure — two calls with identical context and
strategy yield byte-identical text, the first backend call issued by
`_generate_single_proposal` is determined by (context string, strategy) alone
(independent of the backend oracle and of the call counter), and fallback
proposal synthesis is deterministic in (strategy, context). -/
theorem C8_prompt_purity (ctx : NegotiationContext) (strategy : String) :
    build_proposal_prompt ctx strategy = build_proposal_prompt ctx strategy
    ∧ (∀ (llm1 llm2 : LLMOracle) (k1 k2 : Nat) (cs : String),
        firstCallOf (generate_single_proposal llm1 k1 strategy cs ctx)
          = firstCallOf (generate_single_proposal llm2 k2 strategy cs ctx))
    ∧ get_fallback_proposal strategy ctx = get_fallback_proposal strategy ctx := by
  refine ⟨rfl, ?_, rfl⟩
  intro llm1 llm2 k1 k2 cs
  rcases hpp : ctx.past_price with _ | pp
  · simp [generate_single_proposal, hpp, firstCallOf]
  rcases htp : ctx.target_price with _ | tp
  · simp [generate_single_proposal, hpp, htp, firstCallOf]
  rw [genSingle_eq llm1 k1 strategy cs ctx pp tp hpp htp,
    genSingle_eq llm2 k2 strategy cs ctx pp tp hpp htp]
  rcases hb1 : (llm1 k1).bind parse_proposal with _ | p <;>
    rcases hb1' : (llm1 (k1 + 1)).bind parse_proposal with _ | p' <;>
    rcases hb2 : (llm2 k2).bind parse_proposal with _ | q <;>
    rcases hb2' : (llm2 (k2 + 1)).bind parse_proposal with _ | q' <;>
    simp only [firstCallOf] <;> rfl

/-- C9: the fallback proposal is the strategy's four template fragments
concatenated around the rendered target price, with a fixed reasoning /
expected-outcome sentence pattern; a strategy key outside
polite/firm/term_swap resolves to the polite template instead of raising. -/
theorem C9_fallback_synthesis (strategy : String) (ctx : NegotiationContext) :
    get_fallback_proposal strategy ctx =
      [("content", JValue.str
          (((FALLBACK_TEMPLATES strategy).getD polite_template).opening ++ ". "
            ++ ((FALLBACK_TEMPLATES strategy).getD polite_template).transition ++ ", "
            ++ ((FALLBACK_TEMPLATES strategy).getD polite_template).ask ++ " around $"
            ++ fallback_target_str ctx ++ "/month. "
            ++ ((FALLBACK_TEMPLATES strategy).getD polite_template).closing ++ ".")),
       ("reasoning", JValue.str ("Using " ++ strategy
          ++ " approach with fallback template due to LLM error.")),
       ("expected_outcome", JValue.str
          "Vendor is likely to be receptive to a discussion.")]
    ∧ (strategy ≠ "polite" → strategy ≠ "firm" → strategy ≠ "term_swap" →
        (FALLBACK_TEMPLATES strategy).getD polite_template = polite_template) := by
  refine ⟨get_fallback_proposal_eq strategy ctx, ?_⟩
  intro h1 h2 h3
  simp [FALLBACK_TEMPLATES, h1, h2, h3]

/-- C9 witness: the unknown strategy key `"aggressive"` synthesizes a
proposal from the polite template instead of raising. -/
theorem C9_fallback_synthesis_witness :
    (FALLBACK_TEMPLATES "aggressive").getD polite_template = polite_template :=
  (C9_fallback_synthesis "aggressive" testContext).2 (by decide) (by decide) (by decide)

theorem gen_loop3_ok_wf (llm : LLMOracle) (ctx : NegotiationContext) (cs : String)
    (pp tp : ℚ) (hpp : ctx.past_price = some pp) (htp : ctx.target_price = some tp)
    (hlen : (pyStr tp).length ≤ 900) :
    ∃ d1 d2 d3, gen_loop llm ctx cs ["polite", "firm", "term_swap"] 0
        = Except.ok [("polite", d1), ("firm", d2), ("term_swap", d3)]
      ∧ wellFormedProposalDict d1 = true ∧ wellFormedProposalDict d2 = true
      ∧ wellFormedProposalDict d3 = true := by
  obtain ⟨k1, c1, d1, hg1, hwf1⟩ :=
    genSingle_ok_wf llm 0 "polite" cs ctx pp tp hpp htp (Or.inl rfl) hlen
  obtain ⟨k2, c2, d2, hg2, hwf2⟩ :=
    genSingle_ok_wf llm k1 "firm" cs ctx pp tp hpp htp (Or.inr (Or.inl rfl)) hlen
  obtain ⟨k3, c3, d3, hg3, hwf3⟩ :=
    genSingle_ok_wf llm k2 "term_swap" cs ctx pp tp hpp htp (Or.inr (Or.inr rfl)) hlen
  exact ⟨d1, d2, d3, by simp only [gen_loop, hg1, hg2, hg3], hwf1, hwf2, hwf3⟩

/-- C1 (amended): on a context with all five fields present whose rendered
target price is at most 900 characters (every realistic price),
`generate_proposals` returns — without an exception — a mapping with exactly
the keys polite, firm, term_swap in that order, each bound to a Proposal dict
satisfying the §3 bounds; and on such a context `simulate_vendor_response`
with any proposal dict carrying a `content` key returns a structured vendor
reply with the four fixed keys, for any backend behavior.  (The claim as
frozen, which asserts §3 well-formedness for *every* such context, fails for
astronomically long price renderings — see the counterexample.) -/
theorem C1_total_coverage (llm : LLMOracle) (ctx : NegotiationContext)
    (vm : String) (pp tp : ℚ) (st rel : String)
    (h1 : ctx.vendor_message = some vm) (h2 : ctx.past_price = some pp)
    (h3 : ctx.target_price = some tp) (h4 : ctx.service_type = some st)
    (h5 : ctx.relationship = some rel) (hlen : (pyStr tp).length ≤ 900) :
    (∃ p1 p2 p3, generate_proposals llm ctx =
        Except.ok [("polite", p1), ("firm", p2), ("term_swap", p3)]
      ∧ wellFormedProposalDict p1 = true ∧ wellFormedProposalDict p2 = true
      ∧ wellFormedProposalDict p3 = true)
    ∧ (∀ (llm2 : LLMOracle) (u : ℚ) (sel : List (String × JValue)) (pc : JValue),
        jget sel "content" = some pc →
        ∃ calls reply, simulate_vendor_response llm2 u ctx sel
            = Except.ok (calls, reply)
          ∧ keysOf reply = ["content", "accepted_price", "reasoning", "success"]) := by
  constructor
  · simp only [generate_proposals,
      format_context_eq ctx vm pp tp st rel h1 h2 h3 h4 h5]
    exact gen_loop3_ok_wf llm ctx _ pp tp h2 h3 hlen
  · intro llm2 u sel pc hsel
    exact simulate_ok_keys llm2 u ctx sel vm pc pp tp st rel h1 hsel h2 h3 h4 h5

/-- C1 witness: the repository's own test context, against a backend that
always raises, yields three well-formed fallback proposals. -/
theorem C1_total_coverage_witness :
    ∃ p1 p2 p3, generate_proposals (fun _ => none) testContext =
        Except.ok [("polite", p1), ("firm", p2), ("term_swap", p3)]
      ∧ wellFormedProposalDict p1 = true ∧ wellFormedProposalDict p2 = true
      ∧ wellFormedProposalDict p3 = true :=
  (C1_total_coverage (fun _ => none) testContext
    "Your renewal is coming up at $1000/month for the Pro plan." 500 400
    "SaaS Subscription" "1-3 Years" rfl rfl rfl rfl rfl (by decide)).1

theorem wellFormed_false_of_long (p r e : String) (h : 1200 < p.length) :
    wellFormedProposalDict [("content", JValue.str p), ("reasoning", JValue.str r),
      ("expected_outcome", JValue.str e)] = false := by
  have hb : decide (p.length ≤ 1200) = false := decide_eq_false (by omega)
  simp [wellFormedProposalDict, jgetStr, jget, keysOf, hb]

/-- C1 counterexample: the claim as frozen is false — on the valid context
`bigContext` (all five fields present, positive prices, target price
`10^1250`), with a backend that always raises, `generate_proposals` returns
a fallback proposal for "polite" whose content is 1527 characters long,
violating the §3 bound of 1200, so the returned Proposal is not well-formed. -/
theorem C1_counterexample :
    generate_proposals (fun _ => none) bigContext =
      Except.ok [("polite", get_fallback_proposal "polite" bigContext),
                 ("firm", get_fallback_proposal "firm" bigContext),
                 ("term_swap", get_fallback_proposal "term_swap" bigContext)]
    ∧ wellFormedProposalDict (get_fallback_proposal "polite" bigContext) = false := by
  constructor
  · simp only [generate_proposals,
      format_context_eq bigContext
        "Your renewal is coming up at $1000/month for the Pro plan." 500 bigPrice
        "SaaS Subscription" "1-3 Years" rfl rfl rfl rfl rfl,
      gen_loop,
      genSingle_eq (fun _ => none) 0 "polite" _ bigContext 500 bigPrice rfl rfl,
      genSingle_eq (fun _ => none) 2 "firm" _ bigContext 500 bigPrice rfl rfl,
      genSingle_eq (fun _ => none) 4 "term_swap" _ bigContext 500 bigPrice rfl rfl,
      Option.none_bind]
  · rw [get_fallback_proposal_eq]
    apply wellFormed_false_of_long
    rw [length_fallback_content,
      fallback_target_str_of_some bigContext bigPrice rfl, pyStr_bigPrice_length]
    omega

/-- C2: per strategy, `_generate_single_proposal` follows the two-tier state
machine — first backend call with the standard prompt at temperature 0.65;
on a parse/validation failure or a backend exception, a second call with the
strict prompt (standard prompt plus the appended one-line key-enumerating
instruction) at temperature 0.6; a validating second output is returned as
decoded with no fallback; two failures return the deterministic fallback.
`simulate_vendor_response` runs the same machine for a single reply at
temperatures 0.5 then 0.45. -/
theorem C2_two_tier_machine (llm : LLMOracle) (ctx : NegotiationContext)
    (pp tp : ℚ) (hpp : ctx.past_price = some pp) (htp : ctx.target_price = some tp)
    (k : Nat) (strategy cs : String) :
    ((∀ p, (llm k).bind parse_proposal = some p →
        generate_single_proposal llm k strategy cs ctx = Except.ok (k + 1,
          [⟨SYSTEM_PROMPT, PROPOSAL_PROMPT_format cs strategy, 0.65⟩], p))
      ∧ (∀ p, (llm k).bind parse_proposal = none →
          (llm (k + 1)).bind parse_proposal = some p →
          generate_single_proposal llm k strategy cs ctx = Except.ok (k + 2,
            [⟨SYSTEM_PROMPT, PROPOSAL_PROMPT_format cs strategy, 0.65⟩,
             ⟨SYSTEM_PROMPT, PROPOSAL_PROMPT_format cs strategy
                ++ PROPOSAL_STRICT_SUFFIX, 0.6⟩], p))
      ∧ ((llm k).bind parse_proposal = none →
          (llm (k + 1)).bind parse_proposal = none →
          generate_single_proposal llm k strategy cs ctx = Except.ok (k + 2,
            [⟨SYSTEM_PROMPT, PROPOSAL_PROMPT_format cs strategy, 0.65⟩,
             ⟨SYSTEM_PROMPT, PROPOSAL_PROMPT_format cs strategy
                ++ PROPOSAL_STRICT_SUFFIX, 0.6⟩],
            get_fallback_proposal strategy ctx)))
    ∧ (∀ (llm2 : LLMOracle) (u : ℚ) (sel : List (String × JValue))
        (vm : String) (pc : JValue) (st rel : String),
        ctx.vendor_message = some vm → jget sel "content" = some pc →
        ctx.service_type = some st → ctx.relationship = some rel →
        ((∀ r, (llm2 0).bind parse_vendor_response = some r →
            simulate_vendor_response llm2 u ctx sel = Except.ok
              ([⟨VENDOR_SYSTEM_PROMPT, VENDOR_SIMULATION_PROMPT_format vm
                  (jvalStr pc) (pyStr pp) (pyStr tp) st rel, 0.5⟩], r))
          ∧ (∀ r, (llm2 0).bind parse_vendor_response = none →
              (llm2 1).bind parse_vendor_response = some r →
              simulate_vendor_response llm2 u ctx sel = Except.ok
                ([⟨VENDOR_SYSTEM_PROMPT, VENDOR_SIMULATION_PROMPT_format vm
                    (jvalStr pc) (pyStr pp) (pyStr tp) st rel, 0.5⟩,
                  ⟨VENDOR_SYSTEM_PROMPT, VENDOR_SIMULATION_PROMPT_format vm
                    (jvalStr pc) (pyStr pp) (pyStr tp) st rel
                      ++ VENDOR_STRICT_SUFFIX, 0.45⟩], r))
          ∧ ((llm2 0).bind parse_vendor_response = none →
              (llm2 1).bind parse_vendor_response = none →
              simulate_vendor_response llm2 u ctx sel = Except.ok
                ([⟨VENDOR_SYSTEM_PROMPT, VENDOR_SIMULATION_PROMPT_format vm
                    (jvalStr pc) (pyStr pp) (pyStr tp) st rel, 0.5⟩,
                  ⟨VENDOR_SYSTEM_PROMPT, VENDOR_SIMULATION_PROMPT_format vm
                    (jvalStr pc) (pyStr pp) (pyStr tp) st rel
                      ++ VENDOR_STRICT_SUFFIX, 0.45⟩],
                 get_fallback_vendor_response ctx u)))) := by
  constructor
  · refine ⟨?_, ?_, ?_⟩
    · intro p hb1
      rw [genSingle_eq llm k strategy cs ctx pp tp hpp htp]
      simp only [hb1]
    · intro p hb1 hb2
      rw [genSingle_eq llm k strategy cs ctx pp tp hpp htp]
      simp only [hb1, hb2]
    · intro hb1 hb2
      rw [genSingle_eq llm k strategy cs ctx pp tp hpp htp]
      simp only [hb1, hb2]
  · intro llm2 u sel vm pc st rel h1 hsel h4 h5
    refine ⟨?_, ?_, ?_⟩
    · intro r hb1
      rw [simulate_eq llm2 u ctx sel vm pc pp tp st rel h1 hsel hpp htp h4 h5]
      simp only [hb1]
    · intro r hb1 hb2
      rw [simulate_eq llm2 u ctx sel vm pc pp tp st rel h1 hsel hpp htp h4 h5]
      simp only [hb1, hb2]
    · intro hb1 hb2
      rw [simulate_eq llm2 u ctx sel vm pc pp tp st rel h1 hsel hpp htp h4 h5]
      simp only [hb1, hb2]

/-- C2 witness: a backend whose first reply is malformed and whose second
reply is valid makes `_generate_single_proposal` return the decode of the
second output after a standard-then-strict call pair, with no fallback. -/
theorem C2_two_tier_machine_witness :
    generate_single_proposal
        (fun n => if n = 0 then some RawText.malformed
          else some (RawText.obj
            [("strategy", JValue.str "polite"),
             ("proposal", JValue.str "0123456789"),
             ("reasoning", JValue.str "12345"),
             ("expected_outcome", JValue.str "123")]))
        0 "polite" "CS" testContext
      = Except.ok (2,
          [⟨SYSTEM_PROMPT, PROPOSAL_PROMPT_format "CS" "polite", 0.65⟩,
           ⟨SYSTEM_PROMPT, PROPOSAL_PROMPT_format "CS" "polite"
              ++ PROPOSAL_STRICT_SUFFIX, 0.6⟩],
          [("content", JValue.str "0123456789"), ("reasoning", JValue.str "12345"),
           ("expected_outcome", JValue.str "123")]) :=
  ((C2_two_tier_machine
      (fun n => if n = 0 then some RawText.malformed
        else some (RawText.obj
          [("strategy", JValue.str "polite"),
           ("proposal", JValue.str "0123456789"),
           ("reasoning", JValue.str "12345"),
           ("expected_outcome", JValue.str "123")]))
      testContext 500 400 rfl rfl 0 "polite" "CS").1.2.1)
    [("content", JValue.str "0123456789"), ("reasoning", JValue.str "12345"),
     ("expected_outcome", JValue.str "123")]
    (by decide) (by decide)

/-- C5: for every fixed random draw `u` in the uniform(0.25, 0.75) range, the
fallback vendor reply carries `accepted_price = round2(past − (past−target)·u)`
and `success` exactly when `accepted_price < past_price`; in particular for
past_price 1000 and target_price 800 the accepted price lies in [800, 950]
and success is true. -/
theorem C5_fallback_vendor_concession (u : ℚ) (hu1 : 1/4 ≤ u) (hu2 : u ≤ 3/4) :
    (∀ (ctx : NegotiationContext) (pp tp : ℚ),
        ctx.past_price = some pp → ctx.target_price = some tp →
        jget (get_fallback_vendor_response ctx u) "accepted_price"
            = some (JValue.num (round2 (pp - (pp - tp) * u)))
          ∧ jget (get_fallback_vendor_response ctx u) "success"
            = some (JValue.bool (decide (round2 (pp - (pp - tp) * u) < pp))))
    ∧ (∀ ctx : NegotiationContext,
        ctx.past_price = some 1000 → ctx.target_price = some 800 →
        ∃ a, jget (get_fallback_vendor_response ctx u) "accepted_price"
            = some (JValue.num a)
          ∧ 800 ≤ a ∧ a ≤ 950
          ∧ jget (get_fallback_vendor_response ctx u) "success"
            = some (JValue.bool true)) := by
  have key : ∀ (ctx : NegotiationContext) (pp tp : ℚ),
      ctx.past_price = some pp → ctx.target_price = some tp →
      jget (get_fallback_vendor_response ctx u) "accepted_price"
          = some (JValue.num (round2 (pp - (pp - tp) * u)))
        ∧ jget (get_fallback_vendor_response ctx u) "success"
          = some (JValue.bool (decide (round2 (pp - (pp - tp) * u) < pp))) := by
    intro ctx pp tp hpp htp
    simp [get_fallback_vendor_response, hpp, htp, jget]
  refine ⟨key, ?_⟩
  intro ctx h1000 h800
  obtain ⟨ha, hs⟩ := key ctx 1000 800 h1000 h800
  have hx1 : ((850 : ℤ) : ℚ) ≤ 1000 - (1000 - 800) * u := by push_cast; linarith
  have hx2 : (1000 : ℚ) - (1000 - 800) * u ≤ ((950 : ℤ) : ℚ) := by push_cast; linarith
  have hlo : ((850 : ℤ) : ℚ) ≤ round2 (1000 - (1000 - 800) * u) :=
    round2_ge _ 850 hx1
  have hhi : round2 (1000 - (1000 - 800) * u) ≤ ((950 : ℤ) : ℚ) :=
    round2_le _ 950 hx2
  have hsucc : round2 ((1000 : ℚ) - (1000 - 800) * u) < 1000 := by
    have : ((950 : ℤ) : ℚ) < 1000 := by norm_num
    linarith
  refine ⟨round2 (1000 - (1000 - 800) * u), ha, ?_, ?_, ?_⟩
  · have : ((850 : ℤ) : ℚ) = (850 : ℚ) := by norm_num
    linarith [hlo]
  · have : ((950 : ℤ) : ℚ) = (950 : ℚ) := by norm_num
    linarith [hhi]
  · rw [hs, decide_eq_true hsucc]

/-- C5 witness: the repository's test context (past 500, target 400) with the
fixed draw u = 1/2 reports the rounded concession and the success bit
computed exactly as the claim states. -/
theorem C5_fallback_vendor_concession_witness :
    jget (get_fallback_vendor_response testContext (1/2)) "accepted_price"
        = some (JValue.num (round2 (500 - (500 - 400) * (1/2))))
      ∧ jget (get_fallback_vendor_response testContext (1/2)) "success"
        = some (JValue.bool (decide (round2 (500 - (500 - 400) * (1/2)) < 500))) :=
  (C5_fallback_vendor_concession (1/2) (by norm_num) (by norm_num)).1
    testContext 500 400 rfl rfl

theorem jgetStr_some {fields : List (String × JValue)} {key : String} {v : String}
    (h : jgetStr fields key = some v) : jget fields key = some (JValue.str v) := by
  unfold jgetStr at h
  rcases hj : jget fields key with _ | val <;> rw [hj] at h
  · exact Option.noConfusion h
  · cases val <;> simp_all

theorem parse_proposal_rename (fields : List (String × JValue))
    (d : List (String × JValue)) (h : parse_proposal (RawText.obj fields) = some d) :
    jget d "content" = jget fields "proposal" := by
  rcases hst : jgetStr fields "strategy" with _ | st <;>
    rcases hp : jgetStr fields "proposal" with _ | p <;>
    rcases hr : jgetStr fields "reasoning" with _ | r <;>
    rcases he : jgetStr fields "expected_outcome" with _ | e <;>
    simp only [parse_proposal, hst, hp, hr, he] at h <;>
    try exact Option.noConfusion h
  split_ifs at h with hcond
  obtain rfl := (Option.some.inj h)
  rw [jgetStr_some hp]
  rfl

theorem parse_vendor_rename (fields : List (String × JValue))
    (d : List (String × JValue))
    (h : parse_vendor_response (RawText.obj fields) = some d) :
    jget d "content" = jget fields "response" := by
  rcases hresp : jgetStr fields "response" with _ | resp <;>
    rcases hap : jgetNumOrNull fields "accepted_price" with _ | ap <;>
    rcases hr : jgetStr fields "reasoning" with _ | r <;>
    rcases hsu : jget fields "success" with _ | sv <;>
    (try cases sv) <;>
    simp only [parse_vendor_response, hresp, hap, hr, hsu] at h <;>
    try exact Option.noConfusion h
  split_ifs at h with hcond
  obtain rfl := (Option.some.inj h)
  rw [jgetStr_some hresp]
  rfl

/-- C10: every proposal dict produced by `generate_proposals` has exactly the
keys content/reasoning/expected_outcome, every reply produced by
`simulate_vendor_response` has exactly the keys
content/accepted_price/reasoning/success — whichever of the generative or
fallback paths produced them — and validation renames the backend's
`proposal` resp. `response` field to `content`. -/
theorem C10_result_key_shape :
    (∀ (llm : LLMOracle) (ctx : NegotiationContext)
        (out : List (String × List (String × JValue))),
        generate_proposals llm ctx = Except.ok out →
        ∀ e ∈ out, keysOf e.2 = ["content", "reasoning", "expected_outcome"])
    ∧ (∀ (llm : LLMOracle) (u : ℚ) (ctx : NegotiationContext)
        (sel : List (String × JValue)) (calls : List CallRec)
        (reply : List (String × JValue)),
        simulate_vendor_response llm u ctx sel = Except.ok (calls, reply) →
        keysOf reply = ["content", "accepted_price", "reasoning", "success"])
    ∧ (∀ (fields d : List (String × JValue)),
        parse_proposal (RawText.obj fields) = some d →
        jget d "content" = jget fields "proposal")
    ∧ (∀ (fields d : List (String × JValue)),
        parse_vendor_response (RawText.obj fields) = some d →
        jget d "content" = jget fields "response") := by
  refine ⟨?_, ?_, parse_proposal_rename, parse_vendor_rename⟩
  · intro llm ctx out h e he
    unfold generate_proposals at h
    rcases hfc : format_context ctx with e' | cs <;> rw [hfc] at h
    · exact Except.noConfusion h
    · exact gen_loop_keys llm ctx cs _ 0 out h e he
  · intro llm u ctx sel calls reply h
    exact simulate_keys llm u ctx sel calls reply h

/-- C10 witness: a concrete validated backend object has its `proposal` field
renamed to `content` in the returned dict. -/
theorem C10_result_key_shape_witness :
    jget [("content", JValue.str "0123456789"), ("reasoning", JValue.str "12345"),
          ("expected_outcome", JValue.str "123")] "content"
      = jget [("strategy", JValue.str "polite"),
              ("proposal", JValue.str "0123456789"),
              ("reasoning", JValue.str "12345"),
              ("expected_outcome", JValue.str "123")] "proposal" :=
  C10_result_key_shape.2.2.1
    [("strategy", JValue.str "polite"), ("proposal", JValue.str "0123456789"),
     ("reasoning", JValue.str "12345"), ("expected_outcome", JValue.str "123")]
    [("content", JValue.str "0123456789"), ("reasoning", JValue.str "12345"),
     ("expected_outcome", JValue.str "123")]
    (by decide)
